import Mathlib

/-!
Verification of the physics world lifecycle and entity-body synchronization
layer of a 2D/3D rigid-body simulation prototype.  The definitions below are a
shallow embedding of the two source variants (the 2D variant in
src/src/App.tsx and the 3D variant), faithful to the source: React effects
become explicit state-passing functions, engine calls become an observable
trace, and numeric values are rationals.
-/

/-- Observable calls issued to the physics engine by the lifecycle layer. -/
inductive EngineCall where
  | createBody (h : Nat)
  | createCollider (h : Nat) (parent : Nat)
  | removeCollider (h : Nat)
  | removeBody (h : Nat)
  | step
deriving DecidableEq, Repr

/-- Modelled from the spec: the external physics engine world (the engine
itself is a third-party module, specified only at its interface boundary).
Handles are opaque integers issued by an arena, starting at 0 for the first
body and the first collider, as in the underlying engine.  The world tracks
live bodies, live colliders with their parent body, and the number of
completed steps. -/
structure World2D where
  nextBodyHandle : Nat
  nextColliderHandle : Nat
  bodies : List Nat
  colliders : List (Nat × Nat)
  steps : Nat
deriving DecidableEq, Repr

/-- A freshly constructed world: no bodies, no colliders, handle arenas at 0. -/
def World2D.fresh : World2D :=
  { nextBodyHandle := 0, nextColliderHandle := 0, bodies := [], colliders := [], steps := 0 }

/-- Modelled from the spec: world.createRigidBody returns the new body handle. -/
def World2D.createRigidBody (w : World2D) : World2D × Nat :=
  ({ w with nextBodyHandle := w.nextBodyHandle + 1,
            bodies := w.bodies ++ [w.nextBodyHandle] }, w.nextBodyHandle)

/-- Modelled from the spec: world.createCollider attaches a collider to the
given parent body and returns the new collider handle. -/
def World2D.createCollider (w : World2D) (parent : Nat) : World2D × Nat :=
  ({ w with nextColliderHandle := w.nextColliderHandle + 1,
            colliders := w.colliders ++ [(w.nextColliderHandle, parent)] },
   w.nextColliderHandle)

/-- Modelled from the spec: world.removeCollider deletes the collider with the
given handle. -/
def World2D.removeCollider (w : World2D) (h : Nat) : World2D :=
  { w with colliders := w.colliders.filter (fun c => c.1 ≠ h) }

/-- Modelled from the spec: world.removeRigidBody deletes the body with the
given handle together with any colliders still attached to it. -/
def World2D.removeRigidBody (w : World2D) (h : Nat) : World2D :=
  { w with bodies := w.bodies.filter (fun b => b ≠ h),
           colliders := w.colliders.filter (fun c => c.2 ≠ h) }

/-- Modelled from the spec: world.step advances the simulation by one
timestep. -/
def World2D.stepOnce (w : World2D) : World2D :=
  { w with steps := w.steps + 1 }

/-- The per-entity handle refs held by useRigidBody in App.tsx: the stored
rigid body handle (null before creation) and the registered collider
handles. -/
structure BodyRefs where
  rigidBodyHandle : Option Nat
  colliderHandles : List Nat
deriving DecidableEq, Repr

/-- Refs as they are created by useRigidBody: both start empty. -/
def BodyRefs.start : BodyRefs :=
  { rigidBodyHandle := none, colliderHandles := [] }

/-- JavaScript truthiness of the stored numeric handle, as tested by
`if (rigidBodyHandle.current)` in the App.tsx cleanup: null and 0 are falsy,
every other number is truthy. -/
def handleTruthy : Option Nat → Bool
  | none => false
  | some n => n ≠ 0

/-- The mount effect of useRigidBody (App.tsx lines 172-185): if the world is
not yet ready (or absent) it returns without touching the engine; otherwise it
creates a dynamic rigid body, attaches one ball collider, and records both
handles in the refs.  Returns the world, the refs, and the engine-call
trace. -/
def useRigidBodyMount (ready : Bool) (world : Option World2D) (refs : BodyRefs) :
    Option World2D × BodyRefs × List EngineCall :=
  match ready, world with
  | true, some w =>
      let rb := w.createRigidBody
      let col := rb.1.createCollider rb.2
      (some col.1,
       { rigidBodyHandle := some rb.2, colliderHandles := [col.2] },
       [EngineCall.createBody rb.2, EngineCall.createCollider col.2 rb.2])
  | _, _ => (world, refs, [])

/-- The cleanup of useRigidBody (App.tsx lines 199-209): with the world absent
it is a no-op; otherwise it removes every registered collider handle, then
removes the rigid body only if the stored handle is truthy.  The refs are not
assigned in the cleanup body, so they are returned unchanged. -/
def useRigidBodyCleanup (world : Option World2D) (refs : BodyRefs) :
    Option World2D × BodyRefs × List EngineCall :=
  match world with
  | none => (world, refs, [])
  | some w =>
      let colliderCalls := refs.colliderHandles.map EngineCall.removeCollider
      let w1 := refs.colliderHandles.foldl World2D.removeCollider w
      match refs.rigidBodyHandle, handleTruthy refs.rigidBodyHandle with
      | some bh, true =>
          (some (w1.removeRigidBody bh), refs, colliderCalls ++ [EngineCall.removeBody bh])
      | _, _ => (some w1, refs, colliderCalls)

/-- The per-frame callback of Physics2D (App.tsx lines 106-108),
`world?.current?.step()`: with no world it does nothing, otherwise it issues
exactly one step call. -/
def physics2DFrame (world : Option World2D) : Option World2D × List EngineCall :=
  match world with
  | none => (none, [])
  | some w => (some w.stepOnce, [EngineCall.step])

/-- The vertex reshape in the Debug component (App.tsx lines 132-137): the
engine emits 2-component vertices; the loop walks the buffer two scalars at a
time and emits each pair followed by an inserted zero third component.  The
model covers the even-length buffers the loop is specified on. -/
def vertices3D : List ℚ → List ℚ
  | x :: y :: rest => x :: y :: 0 :: vertices3D rest
  | _ => []

/-- The per-frame debug geometry bridge (App.tsx lines 126-148): reshapes the
vertex buffer and hands the color buffer to the renderer unchanged. -/
def debugFrame (vertices colors : List ℚ) : List ℚ × List ℚ :=
  (vertices3D vertices, colors)

/-- The scale factor 0.01 applied to the randomized direction once at entity
construction, in both variants. -/
def scaleFactor : ℚ := 1 / 100

/-- The enemy ref construction in the 3D variant RenderEnemy: each velocity
component is multiplied by 0.01 once, with the middle component fixed at 0. -/
def enemyRefVelocity (v : ℚ × ℚ × ℚ) : ℚ × ℚ × ℚ :=
  (v.1 * scaleFactor, 0, v.2.2 * scaleFactor)

/-- The direction memo in the 2D variant RenderEnemy (App.tsx lines 219-221):
each component is (1 - random * 2) * 0.01, computed once. -/
def direction2D (a b : ℚ) : ℚ × ℚ :=
  ((1 - a * 2) * scaleFactor, (1 - b * 2) * scaleFactor)

/-- The per-entity scheduler refs of the 3D variant RenderEnemy: the wall
clock time of the last issued command and the monotone counter. -/
structure SchedState where
  velocityLastUpdated : Int
  counter : Nat
deriving DecidableEq, Repr

/-- One frame of the 3D variant RenderEnemy: if fewer than 250 ms of wall
clock time have elapsed since the last issued command, do nothing; otherwise
record the current time, increment the counter, and issue a linear velocity
command of the held (pre-scaled) velocity times the counter, middle component
0. -/
def renderEnemyFrame3D (vel : ℚ × ℚ × ℚ) (now : Int) (s : SchedState) :
    SchedState × Option (ℚ × ℚ × ℚ) :=
  if now - s.velocityLastUpdated < 250 then (s, none)
  else
    let c := s.counter + 1
    ({ velocityLastUpdated := now, counter := c },
     some (vel.1 * c, 0, vel.2.2 * c))

/-- Run the 3D variant scheduler over a stream of tick timestamps, collecting
the issued commands with the time each was issued. -/
def runSched3D (vel : ℚ × ℚ × ℚ) : SchedState → List Int → SchedState × List (Int × (ℚ × ℚ × ℚ))
  | s, [] => (s, [])
  | s, t :: ts =>
      let r := renderEnemyFrame3D vel t s
      let rest := runSched3D vel r.1 ts
      match r.2 with
      | none => rest
      | some cmd => (rest.1, (t, cmd) :: rest.2)

/-- One frame of the 2D variant RenderEnemy (App.tsx lines 223-231): the
counter is incremented, a linear velocity command of direction times the
counter is issued unconditionally, then the counter is incremented a second
time.  There is no throttle test. -/
def renderEnemyFrame2D (dir : ℚ × ℚ) (counter : Nat) : Nat × (ℚ × ℚ) :=
  let c := counter + 1
  (c + 1, (dir.1 * c, dir.2 * c))

/-- Run the 2D variant scheduler over a stream of tick timestamps, collecting
the issued commands with the time each was issued (the frame body never reads
the clock). -/
def runSched2D (dir : ℚ × ℚ) : Nat → List Int → Nat × List (Int × (ℚ × ℚ))
  | c, [] => (c, [])
  | c, t :: ts =>
      let r := renderEnemyFrame2D dir c
      let rest := runSched2D dir r.1 ts
      (rest.1, (t, r.2) :: rest.2)

/-- An entity record of the 2D variant. -/
structure Enemy2D where
  id : Nat
  position : ℚ × ℚ
  velocity : ℚ × ℚ
deriving DecidableEq, Repr

/-- An entity record of the 3D variant. -/
structure Enemy3D where
  id : Nat
  position : ℚ × ℚ × ℚ
  velocity : ℚ × ℚ × ℚ
deriving DecidableEq, Repr

/-- The population spawner of the 2D variant App (App.tsx lines 261-274):
for i below count, push an enemy with id i, both position axes
(-1 + random * 2) * spawnScale, and both velocity axes -1 + random * 2.  The
random stream is consumed four values per entity, in source order. -/
def spawnEnemies2D (count : Nat) (spawnScale : ℚ) (rand : Nat → ℚ) : List Enemy2D :=
  (List.range count).map fun i =>
    { id := i,
      position := ((-1 + rand (4 * i) * 2) * spawnScale,
                   (-1 + rand (4 * i + 1) * 2) * spawnScale),
      velocity := (-1 + rand (4 * i + 2) * 2, -1 + rand (4 * i + 3) * 2) }

/-- The population spawner of the 3D variant App: the Y components of
position and velocity are fixed at 0, the X and Z axes randomized as in the
2D variant. -/
def spawnEnemies3D (count : Nat) (spawnScale : ℚ) (rand : Nat → ℚ) : List Enemy3D :=
  (List.range count).map fun i =>
    { id := i,
      position := ((-1 + rand (4 * i) * 2) * spawnScale, 0,
                   (-1 + rand (4 * i + 1) * 2) * spawnScale),
      velocity := (-1 + rand (4 * i + 2) * 2, 0, -1 + rand (4 * i + 3) * 2) }

/-- The physics-side state of a rigid body read back for render: its current
translation and rotation. -/
structure RigidBodyState where
  translation : ℚ × ℚ
  rotation : ℚ
deriving DecidableEq, Repr

/-- The renderable transform of the entity group: position and rotation. -/
structure ThreeTransform where
  position : ℚ × ℚ × ℚ
  rotation : ℚ × ℚ × ℚ
deriving DecidableEq, Repr

/-- The transform sync frame of useRigidBody (App.tsx lines 188-197): when
the body ref is set, read the body translation and write it into the group
position with third component 0; nothing else is touched. -/
def syncTransformFrame (rb : Option RigidBodyState) (t : ThreeTransform) : ThreeTransform :=
  match rb with
  | none => t
  | some body => { t with position := (body.translation.1, body.translation.2, 0) }

/-- The handle-balance scenario behind the testable property of the spec: mount a
single entity into a fresh, ready world, then unmount it; the result is the
final world. -/
def handleBalanceScenario : World2D :=
  let m := useRigidBodyMount true (some World2D.fresh) BodyRefs.start
  let u := useRigidBodyCleanup m.1 m.2.1
  u.1.getD World2D.fresh

/-- Timestamps are at least 250 ms apart, with the first at least 250 ms
after the given base time. -/
def spaced (base : Int) : List Int → Prop
  | [] => True
  | t :: ts => base + 250 ≤ t ∧ spaced t ts

instance spacedDecidable : (base : Int) → (l : List Int) → Decidable (spaced base l)
  | _, [] => Decidable.isTrue trivial
  | b, t :: ts =>
    letI : Decidable (spaced t ts) := spacedDecidable t ts
    decidable_of_iff (b + 250 ≤ t ∧ spaced t ts) Iff.rfl

lemma vertices3D_length : ∀ (n : Nat) (v : List ℚ), v.length = 2 * n →
    (vertices3D v).length = 3 * n := by
  intro n
  induction n with
  | zero =>
    intro v h
    obtain rfl := List.length_eq_zero.mp h
    simp [vertices3D]
  | succ n ih =>
    intro v h
    cases v with
    | nil => simp at h
    | cons x v1 =>
      cases v1 with
      | nil => simp at h; omega
      | cons y rest =>
        have hr : rest.length = 2 * n := by simp at h; omega
        simp [vertices3D, ih rest hr]
        omega

lemma vertices3D_getD : ∀ (i : Nat) (n : Nat) (v : List ℚ), v.length = 2 * n → i < n →
    (vertices3D v).getD (3 * i) 0 = v.getD (2 * i) 0 ∧
    (vertices3D v).getD (3 * i + 1) 0 = v.getD (2 * i + 1) 0 ∧
    (vertices3D v).getD (3 * i + 2) 0 = 0 := by
  intro i
  induction i with
  | zero =>
    intro n v hlen hi
    match v, n with
    | [], n => simp at hlen; omega
    | [x], n => simp at hlen; omega
    | x :: y :: rest, n => simp [vertices3D]
  | succ i ih =>
    intro n v hlen hi
    match v, n with
    | [], n => simp at hlen; omega
    | [x], n => simp at hlen; omega
    | x :: y :: rest, n =>
      cases n with
      | zero => omega
      | succ m =>
        have hr : rest.length = 2 * m := by simp at hlen; omega
        have him : i < m := by omega
        have h3 : 3 * (i + 1) = 3 * i + 1 + 1 + 1 := by ring
        have h3a : 3 * (i + 1) + 1 = 3 * i + 1 + 1 + 1 + 1 := by ring
        have h3b : 3 * (i + 1) + 2 = 3 * i + 2 + 1 + 1 + 1 := by ring
        have h2 : 2 * (i + 1) = 2 * i + 1 + 1 := by ring
        have h2a : 2 * (i + 1) + 1 = 2 * i + 1 + 1 + 1 := by ring
        obtain ⟨e1, e2, e3⟩ := ih m rest hr him
        refine ⟨?_, ?_, ?_⟩
        · rw [h3, h2]; simpa [vertices3D] using e1
        · rw [h3a, h2a]; simpa [vertices3D] using e2
        · rw [h3b]; simpa [vertices3D] using e3

/-- C3: for a 2-component vertex buffer of length 2n with a parallel color
buffer, the debug bridge outputs a vertex buffer of length 3n whose triple at
positions 3i, 3i+1, 3i+2 is the input pair at 2i, 2i+1 followed by 0, and the
color buffer is passed through unchanged. -/
theorem debugFrame_reshape (vertices colors : List ℚ) (n : Nat)
    (hlen : vertices.length = 2 * n) :
    (debugFrame vertices colors).1.length = 3 * n ∧
    (∀ i, i < n →
      (debugFrame vertices colors).1.getD (3 * i) 0 = vertices.getD (2 * i) 0 ∧
      (debugFrame vertices colors).1.getD (3 * i + 1) 0 = vertices.getD (2 * i + 1) 0 ∧
      (debugFrame vertices colors).1.getD (3 * i + 2) 0 = 0) ∧
    (debugFrame vertices colors).2 = colors := by
  refine ⟨vertices3D_length n vertices hlen, ?_, rfl⟩
  intro i hi
  exact vertices3D_getD i n vertices hlen hi

theorem debugFrame_reshape_witness :
    (debugFrame [1, 2, 3, 4] [5, 6, 7, 8] ).1.length = 3 * 2 :=
  (debugFrame_reshape [1, 2, 3, 4] [5, 6, 7, 8] 2 (by decide)).1

/-- C8: the per-frame step callback is a no-op with no engine call and no
state change while the world is absent, and advances the simulation by
exactly one timestep, touching nothing else, once the world is ready. -/
theorem physics2DFrame_spec :
    physics2DFrame none = (none, []) ∧
    ∀ w : World2D, (physics2DFrame (some w)).2 = [EngineCall.step] ∧
      (physics2DFrame (some w)).1 = some w.stepOnce ∧
      w.stepOnce.steps = w.steps + 1 ∧
      w.stepOnce.bodies = w.bodies ∧ w.stepOnce.colliders = w.colliders :=
  ⟨rfl, fun _ => ⟨rfl, rfl, rfl, rfl, rfl⟩⟩

/-- C9: the transform sync writes only the body translation (third component
0) into the renderable position, leaves the renderable rotation unchanged,
and never reads the body rotation (its output is the same for any two
rotation values of the body). -/
theorem syncTransformFrame_spec :
    (∀ t, syncTransformFrame none t = t) ∧
    (∀ body t, (syncTransformFrame (some body) t).position =
        (body.translation.1, body.translation.2, 0) ∧
      (syncTransformFrame (some body) t).rotation = t.rotation) ∧
    (∀ tr rotA rotB t,
      syncTransformFrame (some { translation := tr, rotation := rotA }) t =
        syncTransformFrame (some { translation := tr, rotation := rotB }) t) :=
  ⟨fun _ => rfl, fun _ _ => ⟨rfl, rfl⟩, fun _ _ _ _ => rfl⟩

/-- C4: while the world is not ready no creation call reaches the engine and
the world and refs are left untouched; the effect re-runs when readiness
flips, and a run with readiness true and a present world issues exactly the
deferred body and collider creations. -/
theorem useRigidBodyMount_gating :
    (∀ world refs, (useRigidBodyMount false world refs).2.2 = [] ∧
      (useRigidBodyMount false world refs).1 = world ∧
      (useRigidBodyMount false world refs).2.1 = refs) ∧
    (∀ refs, (useRigidBodyMount true none refs).2.2 = [] ∧
      (useRigidBodyMount true none refs).2.1 = refs) ∧
    (∀ w refs, (useRigidBodyMount true (some w) refs).2.2 =
      [EngineCall.createBody w.nextBodyHandle,
       EngineCall.createCollider w.nextColliderHandle w.nextBodyHandle]) := by
  refine ⟨fun world refs => ?_, fun refs => ⟨rfl, rfl⟩, fun w refs => rfl⟩
  cases world <;> exact ⟨rfl, rfl, rfl⟩


lemma useRigidBodyCleanup_calls_eq (w : World2D) (refs : BodyRefs) :
    (useRigidBodyCleanup (some w) refs).2.2 =
      refs.colliderHandles.map EngineCall.removeCollider ++
        (if handleTruthy refs.rigidBodyHandle then
          [EngineCall.removeBody (refs.rigidBodyHandle.getD 0)] else []) := by
  rcases refs with ⟨rbh, hs⟩
  cases rbh with
  | none => simp [useRigidBodyCleanup, handleTruthy]
  | some bh =>
    by_cases hb : bh = 0
    · subst hb
      simp [useRigidBodyCleanup, handleTruthy]
    · simp [useRigidBodyCleanup, handleTruthy, hb]

lemma useRigidBodyCleanup_refs_eq (w : World2D) (refs : BodyRefs) :
    (useRigidBodyCleanup (some w) refs).2.1 = refs := by
  rcases refs with ⟨rbh, hs⟩
  cases rbh with
  | none => simp [useRigidBodyCleanup]
  | some bh =>
    by_cases hb : bh = 0
    · subst hb
      simp [useRigidBodyCleanup, handleTruthy]
    · simp [useRigidBodyCleanup, handleTruthy, hb]

lemma map_removeCollider_getD (hs : List Nat) (t : List EngineCall) (k : Nat)
    (hk : k < hs.length) :
    (hs.map EngineCall.removeCollider ++ t).getD k EngineCall.step =
      EngineCall.removeCollider (hs.getD k 0) := by
  have hk2 : k < (hs.map EngineCall.removeCollider).length := by simpa using hk
  rw [List.getD_append _ _ _ _ hk2, List.getD_eq_getElem _ _ hk2,
    List.getElem_map, List.getD_eq_getElem _ _ hk]

lemma map_removeCollider_getD2 (hs : List Nat) (k : Nat) (hk : k < hs.length) :
    (hs.map EngineCall.removeCollider).getD k EngineCall.step =
      EngineCall.removeCollider (hs.getD k 0) := by
  have h := map_removeCollider_getD hs [] k hk
  simpa using h

/-- C1: in the engine-call trace of the useRigidBody cleanup, every
collider-removal call occurs strictly before any body-removal call: a body
removal with a still-registered collider is never observed. -/
theorem useRigidBodyCleanup_order (w : World2D) (refs : BodyRefs)
    (i j : Nat)
    (hi : i < (useRigidBodyCleanup (some w) refs).2.2.length)
    (hj : j < (useRigidBodyCleanup (some w) refs).2.2.length)
    (c b : Nat)
    (hic : (useRigidBodyCleanup (some w) refs).2.2.getD i EngineCall.step =
      EngineCall.removeCollider c)
    (hjb : (useRigidBodyCleanup (some w) refs).2.2.getD j EngineCall.step =
      EngineCall.removeBody b) :
    i < j := by
  rw [useRigidBodyCleanup_calls_eq] at hic hjb
  rcases Bool.eq_false_or_eq_true (handleTruthy refs.rigidBodyHandle) with htr | hf
  · rw [htr] at hic hjb
    simp only [if_true] at hic hjb
    have hiL : i < refs.colliderHandles.length := by
      by_contra hnot
      push_neg at hnot
      have hnot2 : (refs.colliderHandles.map EngineCall.removeCollider).length ≤ i := by
        simpa using hnot
      rw [List.getD_append_right _ _ _ _ hnot2] at hic
      rcases Nat.eq_zero_or_pos
          (i - (refs.colliderHandles.map EngineCall.removeCollider).length) with hz | hp
      · rw [hz] at hic
        simp at hic
      · rw [List.getD_eq_default] at hic
        · simp at hic
        · simp only [List.length_cons, List.length_nil]
          omega
    have hjL : refs.colliderHandles.length ≤ j := by
      by_contra hnot
      push_neg at hnot
      rw [map_removeCollider_getD _ _ j hnot] at hjb
      simp at hjb
    omega
  · exfalso
    rw [hf] at hjb
    simp only [Bool.false_eq_true, if_false, List.append_nil] at hjb
    rcases Nat.lt_or_ge j refs.colliderHandles.length with hlt | hge
    · rw [map_removeCollider_getD2 _ j hlt] at hjb
      simp at hjb
    · rw [List.getD_eq_default] at hjb
      · simp at hjb
      · simpa using hge

theorem useRigidBodyCleanup_order_witness :
    (useRigidBodyCleanup (some World2D.fresh) ⟨some 5, [3]⟩).2.2 =
      [EngineCall.removeCollider 3, EngineCall.removeBody 5] ∧ (0 : Nat) < 1 :=
  ⟨by decide,
   useRigidBodyCleanup_order World2D.fresh ⟨some 5, [3]⟩ 0 1 (by decide) (by decide)
     3 5 (by decide) (by decide)⟩

/-- C10: the body removal in the cleanup is guarded by JavaScript truthiness
of the stored handle: with body handle 0 the colliders are removed but no
body-removal call is issued; with any nonzero body handle the body removal is
issued after the collider removals. -/
theorem useRigidBodyCleanup_truthiness (w : World2D) (refs : BodyRefs) :
    (refs.rigidBodyHandle = some 0 →
      (useRigidBodyCleanup (some w) refs).2.2 =
        refs.colliderHandles.map EngineCall.removeCollider ∧
      ∀ b, EngineCall.removeBody b ∉ (useRigidBodyCleanup (some w) refs).2.2) ∧
    (∀ h, refs.rigidBodyHandle = some h → h ≠ 0 →
      (useRigidBodyCleanup (some w) refs).2.2 =
        refs.colliderHandles.map EngineCall.removeCollider ++
          [EngineCall.removeBody h]) := by
  constructor
  · intro h0
    rw [useRigidBodyCleanup_calls_eq, h0]
    constructor
    · simp [handleTruthy]
    · intro b hb
      simp only [handleTruthy] at hb
      simp at hb
  · intro h hh hnz
    rw [useRigidBodyCleanup_calls_eq, hh]
    simp [handleTruthy, hnz]

theorem useRigidBodyCleanup_truthiness_witness :
    (useRigidBodyCleanup (some World2D.fresh) ⟨some 0, [1]⟩).2.2 =
      [EngineCall.removeCollider 1] ∧
    (useRigidBodyCleanup (some World2D.fresh) ⟨some 5, [3]⟩).2.2 =
      [EngineCall.removeCollider 3, EngineCall.removeBody 5] := by
  constructor
  · have h := (useRigidBodyCleanup_truthiness World2D.fresh ⟨some 0, [1]⟩).1 rfl
    simpa using h.1
  · have h := (useRigidBodyCleanup_truthiness World2D.fresh ⟨some 5, [3]⟩).2 5 rfl
      (by decide)
    simpa using h

/-- C6 counterexample: unmounting an entity whose refs hold body handle 5 and
collider handle 3 issues the collider-removal call, yet after the cleanup
returns the refs still retain both handle values - they are not cleared. -/
theorem useRigidBodyCleanup_retains_refs_cex :
    EngineCall.removeCollider 3 ∈
      (useRigidBodyCleanup (some World2D.fresh) ⟨some 5, [3]⟩).2.2 ∧
    (useRigidBodyCleanup (some World2D.fresh) ⟨some 5, [3]⟩).2.1.colliderHandles = [3] ∧
    (useRigidBodyCleanup (some World2D.fresh) ⟨some 5, [3]⟩).2.1.rigidBodyHandle =
      some 5 := by
  refine ⟨?_, rfl, rfl⟩
  decide

/-- C6 (amended): the cleanup issues a removal call for every registered
collider handle and, when the stored body handle is truthy, for the body
handle, but it does not clear the locally retained handle values: the refs
are returned exactly as they were; the entry disappears only because the
component instance itself is discarded on unmount. -/
theorem useRigidBodyCleanup_calls_and_refs (w : World2D) (refs : BodyRefs) :
    (∀ c ∈ refs.colliderHandles,
      EngineCall.removeCollider c ∈ (useRigidBodyCleanup (some w) refs).2.2) ∧
    (∀ h, refs.rigidBodyHandle = some h → h ≠ 0 →
      EngineCall.removeBody h ∈ (useRigidBodyCleanup (some w) refs).2.2) ∧
    (useRigidBodyCleanup (some w) refs).2.1 = refs := by
  refine ⟨?_, ?_, useRigidBodyCleanup_refs_eq w refs⟩
  · intro c hc
    rw [useRigidBodyCleanup_calls_eq]
    exact List.mem_append_left _ (List.mem_map_of_mem _ hc)
  · intro h hh hnz
    rw [useRigidBodyCleanup_calls_eq, hh]
    simp [handleTruthy, hnz]

theorem useRigidBodyCleanup_calls_and_refs_witness :
    EngineCall.removeCollider 3 ∈
      (useRigidBodyCleanup (some World2D.fresh) ⟨some 5, [3]⟩).2.2 ∧
    EngineCall.removeBody 5 ∈
      (useRigidBodyCleanup (some World2D.fresh) ⟨some 5, [3]⟩).2.2 :=
  ⟨(useRigidBodyCleanup_calls_and_refs World2D.fresh ⟨some 5, [3]⟩).1 3 (by decide),
   (useRigidBodyCleanup_calls_and_refs World2D.fresh ⟨some 5, [3]⟩).2.1 5 rfl
     (by decide)⟩

/-- C5: the first body created in a fresh world receives handle 0; on unmount
the collider is removed but the truthiness guard skips the body removal, so
after every entity is unmounted the world still holds one body - the handle
balance property fails on the code. -/
theorem handleBalance_bug :
    handleBalanceScenario.colliders = [] ∧ handleBalanceScenario.bodies = [0] := by
  decide

lemma runSched3D_spaced (vel : ℚ × ℚ × ℚ) :
    ∀ (ticks : List Int) (s : SchedState),
      spaced s.velocityLastUpdated ((runSched3D vel s ticks).2.map Prod.fst) := by
  intro ticks
  induction ticks with
  | nil => intro s; simp [runSched3D, spaced]
  | cons t ts ih =>
    intro s
    by_cases h : t - s.velocityLastUpdated < 250
    · simpa [runSched3D, renderEnemyFrame3D, h] using ih s
    · simp only [runSched3D, renderEnemyFrame3D, h, if_neg, if_false]
      simp only [List.map_cons, spaced]
      refine ⟨by omega, ?_⟩
      have h2 := ih { velocityLastUpdated := t, counter := s.counter + 1 }
      simpa using h2

lemma runSched3D_kth (vel : ℚ × ℚ × ℚ) :
    ∀ (ticks : List Int) (s : SchedState) (k : Nat)
      (hk : k < (runSched3D vel s ticks).2.length),
      ((runSched3D vel s ticks).2.getD k (0, 0, 0, 0)).2 =
        (vel.1 * (s.counter + k + 1 : ℕ), 0, vel.2.2 * (s.counter + k + 1 : ℕ)) := by
  intro ticks
  induction ticks with
  | nil => intro s k hk; simp [runSched3D] at hk
  | cons t ts ih =>
    intro s k hk
    by_cases h : t - s.velocityLastUpdated < 250
    · simp only [runSched3D, renderEnemyFrame3D, h, if_pos] at hk ⊢
      exact ih s k hk
    · simp only [runSched3D, renderEnemyFrame3D, h, if_neg, if_false] at hk ⊢
      cases k with
      | zero => simp
      | succ k =>
        simp only [List.getD_cons_succ, List.length_cons] at hk ⊢
        have h2 := ih { velocityLastUpdated := t, counter := s.counter + 1 } k
          (by omega)
        rw [h2]
        have e : s.counter + 1 + k + 1 = s.counter + (k + 1) + 1 := by omega
        simp [e]

lemma runSched2D_length (dir : ℚ × ℚ) :
    ∀ (ticks : List Int) (c : Nat),
      (runSched2D dir c ticks).2.length = ticks.length := by
  intro ticks
  induction ticks with
  | nil => intro c; simp [runSched2D]
  | cons t ts ih =>
    intro c
    simp [runSched2D, renderEnemyFrame2D, ih]

lemma runSched2D_kth (dir : ℚ × ℚ) :
    ∀ (ticks : List Int) (c : Nat) (k : Nat)
      (hk : k < (runSched2D dir c ticks).2.length),
      ((runSched2D dir c ticks).2.getD k (0, 0, 0)).2 =
        (dir.1 * (c + 2 * k + 1 : ℕ), dir.2 * (c + 2 * k + 1 : ℕ)) := by
  intro ticks
  induction ticks with
  | nil => intro c k hk; simp [runSched2D] at hk
  | cons t ts ih =>
    intro c k hk
    cases k with
    | zero => simp [runSched2D, renderEnemyFrame2D]
    | succ k =>
      simp only [runSched2D, renderEnemyFrame2D, List.getD_cons_succ,
        List.length_cons] at hk ⊢
      have h2 := ih (c + 1 + 1) k (by omega)
      rw [h2]
      have e : c + 1 + 1 + 2 * k + 1 = c + 2 * (k + 1) + 1 := by omega
      simp [e]

/-- C2 counterexample: the 2D variant RenderEnemy, ticked at wall-clock times
0 and 100 (less than 250 ms apart), issues a velocity command on both ticks -
there is no throttle - and the second issued command has magnitude
direction times 3, not direction times 2, because the counter is incremented
twice per frame. -/
theorem velocityScheduler_cex :
    (runSched2D (direction2D 0 0) 0 [0, 100]).2 =
      [(0, scaleFactor, scaleFactor), (100, 3 * scaleFactor, 3 * scaleFactor)] := by
  norm_num [runSched2D, renderEnemyFrame2D, direction2D, scaleFactor]

/-- C2 (amended): the 3D variant RenderEnemy issues at most one command per
250 ms interval (consecutive issued commands are at least 250 ms apart) and
its k-th issued command equals the raw direction times scaleFactor (applied
once at construction) times k; the 2D variant RenderEnemy has no throttle -
it issues exactly one command per tick - and its k-th issued command equals
the raw direction times scaleFactor times 2k-1, the counter being
incremented twice per frame. -/
theorem velocityScheduler_amended :
    (∀ (v : ℚ × ℚ × ℚ) (ticks : List Int) (s : SchedState),
      spaced s.velocityLastUpdated
        ((runSched3D (enemyRefVelocity v) s ticks).2.map Prod.fst)) ∧
    (∀ (v : ℚ × ℚ × ℚ) (ticks : List Int) (last : Int) (k : Nat),
      k < (runSched3D (enemyRefVelocity v) ⟨last, 0⟩ ticks).2.length →
      ((runSched3D (enemyRefVelocity v) ⟨last, 0⟩ ticks).2.getD k (0, 0, 0, 0)).2 =
        (v.1 * scaleFactor * (k + 1 : ℕ), 0, v.2.2 * scaleFactor * (k + 1 : ℕ))) ∧
    (∀ (a b : ℚ) (ticks : List Int),
      (runSched2D (direction2D a b) 0 ticks).2.length = ticks.length) ∧
    (∀ (a b : ℚ) (ticks : List Int) (k : Nat),
      k < (runSched2D (direction2D a b) 0 ticks).2.length →
      ((runSched2D (direction2D a b) 0 ticks).2.getD k (0, 0, 0)).2 =
        ((1 - a * 2) * scaleFactor * (2 * k + 1 : ℕ),
         (1 - b * 2) * scaleFactor * (2 * k + 1 : ℕ))) := by
  refine ⟨fun v ticks s => runSched3D_spaced (enemyRefVelocity v) ticks s,
    fun v ticks last k hk => ?_, fun a b ticks => runSched2D_length _ ticks 0,
    fun a b ticks k hk => ?_⟩
  · have h := runSched3D_kth (enemyRefVelocity v) ticks ⟨last, 0⟩ k hk
    simpa [enemyRefVelocity] using h
  · have h := runSched2D_kth (direction2D a b) ticks 0 k hk
    simpa [direction2D] using h

theorem velocityScheduler_amended_witness :
    spaced 0 ((runSched3D (enemyRefVelocity (1, 0, 2)) ⟨0, 0⟩ [300]).2.map Prod.fst) ∧
    ((runSched3D (enemyRefVelocity (1, 0, 2)) ⟨0, 0⟩ [300]).2.getD 0 (0, 0, 0, 0)).2 =
      (1 * scaleFactor * ((0 + 1 : ℕ) : ℚ), 0, 2 * scaleFactor * ((0 + 1 : ℕ) : ℚ)) ∧
    (runSched2D (direction2D 0 0) 0 [0, 100]).2.length = [0, 100].length :=
  ⟨velocityScheduler_amended.1 (1, 0, 2) [300] ⟨0, 0⟩,
   velocityScheduler_amended.2.1 (1, 0, 2) [300] 0 0 (by decide),
   velocityScheduler_amended.2.2.1 0 0 [0, 100]⟩

lemma spawnComponent_bounds {r s : ℚ} (h0 : 0 ≤ r) (h1 : r ≤ 1) (hs : 0 ≤ s) :
    -s ≤ (-1 + r * 2) * s ∧ (-1 + r * 2) * s ≤ s := by
  constructor
  · nlinarith [mul_nonneg h0 hs]
  · nlinarith [mul_nonneg (sub_nonneg.mpr h1) hs]

/-- C7: with every drawn random value in the unit interval and a nonnegative
spawn scale, both spawners produce exactly count records with ids exactly
0..count-1; every randomized position component lies in
[-spawnScale, spawnScale] (the middle position component is fixed at 0 in the
3D variant) and every randomized velocity component lies in [-1, 1] (middle
component 0 in the 3D variant). -/
theorem spawnEnemies_spec (count : Nat) (spawnScale : ℚ) (rand : Nat → ℚ)
    (hrand : ∀ n, 0 ≤ rand n ∧ rand n ≤ 1) (hscale : 0 ≤ spawnScale) :
    (spawnEnemies2D count spawnScale rand).map Enemy2D.id = List.range count ∧
    (∀ e ∈ spawnEnemies2D count spawnScale rand,
      (-spawnScale ≤ e.position.1 ∧ e.position.1 ≤ spawnScale) ∧
      (-spawnScale ≤ e.position.2 ∧ e.position.2 ≤ spawnScale) ∧
      (-1 ≤ e.velocity.1 ∧ e.velocity.1 ≤ 1) ∧
      (-1 ≤ e.velocity.2 ∧ e.velocity.2 ≤ 1)) ∧
    (spawnEnemies3D count spawnScale rand).map Enemy3D.id = List.range count ∧
    (∀ e ∈ spawnEnemies3D count spawnScale rand,
      (-spawnScale ≤ e.position.1 ∧ e.position.1 ≤ spawnScale) ∧
      e.position.2.1 = 0 ∧
      (-spawnScale ≤ e.position.2.2 ∧ e.position.2.2 ≤ spawnScale) ∧
      (-1 ≤ e.velocity.1 ∧ e.velocity.1 ≤ 1) ∧
      e.velocity.2.1 = 0 ∧
      (-1 ≤ e.velocity.2.2 ∧ e.velocity.2.2 ≤ 1)) := by
  refine ⟨?_, ?_, ?_, ?_⟩
  · simp [spawnEnemies2D, List.map_map, Function.comp_def]
  · intro e he
    simp only [spawnEnemies2D, List.mem_map, List.mem_range] at he
    obtain ⟨i, hi, rfl⟩ := he
    dsimp only
    obtain ⟨h0a, h1a⟩ := hrand (4 * i)
    obtain ⟨h0b, h1b⟩ := hrand (4 * i + 1)
    obtain ⟨h0c, h1c⟩ := hrand (4 * i + 2)
    obtain ⟨h0d, h1d⟩ := hrand (4 * i + 3)
    exact ⟨spawnComponent_bounds h0a h1a hscale,
      spawnComponent_bounds h0b h1b hscale,
      ⟨by linarith, by linarith⟩, ⟨by linarith, by linarith⟩⟩
  · simp [spawnEnemies3D, List.map_map, Function.comp_def]
  · intro e he
    simp only [spawnEnemies3D, List.mem_map, List.mem_range] at he
    obtain ⟨i, hi, rfl⟩ := he
    dsimp only
    obtain ⟨h0a, h1a⟩ := hrand (4 * i)
    obtain ⟨h0b, h1b⟩ := hrand (4 * i + 1)
    obtain ⟨h0c, h1c⟩ := hrand (4 * i + 2)
    obtain ⟨h0d, h1d⟩ := hrand (4 * i + 3)
    exact ⟨spawnComponent_bounds h0a h1a hscale, rfl,
      spawnComponent_bounds h0b h1b hscale,
      ⟨by linarith, by linarith⟩, rfl, ⟨by linarith, by linarith⟩⟩

theorem spawnEnemies_spec_witness :
    (spawnEnemies2D 1 10 (fun _ => 1 / 2)).map Enemy2D.id = List.range 1 :=
  (spawnEnemies_spec 1 10 (fun _ => 1 / 2)
    (fun _ => ⟨by norm_num, by norm_num⟩) (by norm_num)).1
